import Mathlib

/-!
Shallow embedding of `src/services/graphService.ts` (the JSON-to-graph core of
the json-graph-visualizer repository) together with the data model of
`src/types.ts`, and proofs about the claims of the specification.

Modelling conventions
* A parsed JSON value (the result of `JSON.parse`) is the inductive `Json`
  below.  JSON numbers are modelled as arbitrary-precision integers: every
  number occurring in the claims (sequence numbers, ids) is an integer, and
  the build inspects numbers only through equality and truthiness.
* `JSON.parse` itself is a JavaScript builtin, not repository code; it is
  modelled abstractly: the entry point receives `Except String Json`, the
  parse outcome (`.error msg` = a `SyntaxError` with message `msg` was thrown).
* JavaScript `undefined` is `Option.none`; a missing object field reads as
  `none`.  Property access on `null` throws a `TypeError`; `TypeError`
  message texts are engine specific, so the messages produced here are fixed
  representative strings — the proofs only rely on a thrown value being an
  `Error` (carrying some message), exactly what the `catch` block of
  `jsonToGraphData` inspects.
* Thrown JavaScript values are modelled as their message strings: every value
  the build can throw is an `Error` instance (a `SyntaxError` from
  `JSON.parse` or a `TypeError` from the traversal), so the
  `error instanceof Error` test in the catch block is always true and the
  non-`Error` branch (line 146 of the source) is dead code.
* `new Date(x).toLocaleDateString()` renders a date in a host- and
  locale-dependent way; it is modelled as a fixed placeholder string.  No
  claim depends on the text of a label containing a date.
* JavaScript `Map` keys are compared with SameValueZero: by value for
  primitives, by reference for objects.  `JSON.parse` never produces aliased
  references, so an object or array key can never be equal to a key looked up
  later; `jsKeyEq` below reflects exactly that.
-/

namespace GraphService

/-- A parsed JSON value (output of `JSON.parse`); numbers as integers. -/
inductive Json where
  | null
  | bool (b : Bool)
  | num (n : Int)
  | str (s : String)
  | arr (elems : List Json)
  | obj (fields : List (String × Json))
deriving Inhabited

/-- Edge type union of `src/types.ts` line 16:
`default | sequence | reference | amendment`. -/
inductive EdgeType where
  | default
  | sequence
  | reference
  | amendment
deriving DecidableEq, Repr

/-- Payload stored in `Node.data`: either an original JSON fragment, or an
object literal built by the service whose field values may be `undefined`
(the order-vertex record of line 33 and the spread of line 61). -/
inductive JsData where
  | val (j : Json)
  | objU (fields : List (String × Option Json))

/-- Source: `Node` of `src/types.ts` (the fields the service assigns; the optional
d3 simulation fields and `status` are never set by `graphService.ts`). -/
structure Node where
  id : String
  label : String
  type : String
  data : JsData
  depth : Nat

/-- Source: `Edge` of `src/types.ts` (sources/targets are node-id strings). -/
structure Edge where
  source : String
  target : String
  type : EdgeType
deriving DecidableEq, Repr

/-- Source: `GraphData` of `src/types.ts`. -/
structure GraphData where
  nodes : List Node
  edges : List Edge

/-- First-match lookup of a string key in an association list (JS object
property read; parsed JS objects have unique keys). -/
def lookupStr (k : String) : List (String × α) → Option α
  | [] => none
  | (k', v) :: rest => if k' = k then some v else lookupStr k rest

/-- JavaScript truthiness of a possibly-`undefined` value. -/
def truthy : Option Json → Bool
  | none => false
  | some .null => false
  | some (.bool b) => b
  | some (.num n) => n != 0
  | some (.str s) => s ≠ ""
  | some (.arr _) => true
  | some (.obj _) => true

/-- Source: `typeof x === "object"` for a parsed JSON value (true for objects,
arrays and `null`). -/
def isObjectType : Json → Bool
  | .null => true
  | .arr _ => true
  | .obj _ => true
  | _ => false

/-- Property read on a value known not to be nullish: objects look the key
up, primitives and arrays yield `undefined` (none of the properties the
service reads exists on them). -/
def jsGet (j : Json) (k : String) : Option Json :=
  match j with
  | .obj fs => lookupStr k fs
  | _ => none

/-- Property read on an arbitrary value: reading from `null` throws a
`TypeError` (modelled as its message). -/
def jsGetE (j : Json) (k : String) : Except String (Option Json) :=
  match j with
  | .null => .error ("Cannot read properties of null (reading " ++ k ++ ")")
  | j => .ok (jsGet j k)

mutual

/-- JavaScript `String(x)` / template-literal conversion of a defined value. -/
def jsToString : Json → String
  | .null => "null"
  | .bool b => if b then "true" else "false"
  | .num n => toString n
  | .str s => s
  | .arr xs => String.intercalate "," (jsToStringArr xs)
  | .obj _ => "[object Object]"

/-- Elementwise conversion used by `Array.prototype.toString` (= `join(",")`),
which renders `null` elements as the empty string. -/
def jsToStringArr : List Json → List String
  | [] => []
  | .null :: rest => "" :: jsToStringArr rest
  | x :: rest => jsToString x :: jsToStringArr rest

end

/-- Template-literal conversion of a possibly-`undefined` value. -/
def jsToStringU : Option Json → String
  | none => "undefined"
  | some j => jsToString j

/-- Source: `x?.[0]` on a possibly-`undefined` value: arrays index, strings index
into characters, objects look up the key `"0"`, other bases give
`undefined`. -/
def jsIndex0 : Option Json → Option Json
  | none => none
  | some .null => none
  | some (.arr xs) => xs.head?
  | some (.str s) =>
    match s.data with
    | [] => none
    | c :: _ => some (.str (String.singleton c))
  | some (.obj fs) => lookupStr "0" fs
  | some _ => none

/-- Source: `${v || ""}`: the stringification of `v` when truthy, else the empty
string. -/
def orEmpty (v : Option Json) : String :=
  if truthy v then jsToStringU v else ""

/-- Source: `x.length` on a defined value (arrays and strings have a length;
objects may carry a literal `length` field). -/
def jsLength : Json → Option Json
  | .arr xs => some (.num xs.length)
  | .str s => some (.num s.length)
  | .obj fs => lookupStr "length" fs
  | _ => none

/-- Source: `new Date(x).toLocaleDateString()`: host/locale dependent, no claim
inspects it; modelled as a fixed placeholder. -/
def toLocaleDateString (_v : Option Json) : String := "[date]"

/-- Own enumerable properties contributed by an object spread `{...x}`:
object fields, array/string elements under their index keys, nothing for
other primitives. -/
def indexFields : List Json → Nat → List (String × Json)
  | [], _ => []
  | x :: xs, i => (toString i, x) :: indexFields xs (i + 1)

/-- Fields produced by spreading a (truthy) value into an object literal. -/
def spreadFields : Json → List (String × Json)
  | .obj fs => fs
  | .arr xs => indexFields xs 0
  | .str s => indexFields (s.data.map fun c => .str (String.singleton c)) 0
  | _ => []

/-- SameValueZero equality as used by JavaScript `Map` keys, specialised to
values coming out of `JSON.parse`: primitives compare by value; object and
array keys compare by reference, and `JSON.parse` never aliases, so they are
never equal to a separately parsed value. -/
def jsKeyEq : Json → Json → Bool
  | .null, .null => true
  | .bool a, .bool b => a == b
  | .num a, .num b => a == b
  | .str a, .str b => a == b
  | _, _ => false

/-- Source: `Map.prototype.get` over the modelled entry list. -/
def mapGet (k : Json) : List (Json × String) → Option String
  | [] => none
  | (k', v) :: rest => if jsKeyEq k' k then some v else mapGet k rest

/-- Source: `Map.prototype.set` over the modelled entry list (replaces the value of
an existing key, else appends). -/
def mapSet (k : Json) (v : String) : List (Json × String) → List (Json × String)
  | [] => [(k, v)]
  | (k', v') :: rest =>
    if jsKeyEq k' k then (k, v) :: rest else (k', v') :: mapSet k v rest

/-- The nested `sequenceToNodeId` structure: entity-type name → (sequence
value → node id). -/
def SeqMaps := List (String × List (Json × String))

/-- Source: `if (!maps.sequenceToNodeId.has(t)) maps.sequenceToNodeId.set(t, new Map());
maps.sequenceToNodeId.get(t)!.set(k, v)` (lines 47-50 and analogues). -/
def seqMapsSet (t : String) (k : Json) (v : String) : SeqMaps → SeqMaps
  | [] => [(t, [(k, v)])]
  | (t', m) :: rest =>
    if t' = t then (t', mapSet k v m) :: rest else (t', m) :: seqMapsSet t k v rest

/-- Source: `maps.sequenceToNodeId.get(t)?.get(k)`. -/
def seqMapsGet (t : String) (k : Json) (ms : SeqMaps) : Option String :=
  match lookupStr t ms with
  | none => none
  | some m => mapGet k m

/-- Mutable state of one build: the module-level `nodeIdCounter` (line 3)
plus the `nodes`, `edges` and `maps` locals of `jsonToGraphData`. -/
structure BuildState where
  nodeIdCounter : Nat
  nodes : List Node
  edges : List Edge
  seqMaps : SeqMaps
  idMap : List (Json × String)

/-- The id string `node-${k}`. -/
def nodeIdStr (k : Nat) : String := "node-" ++ toString k

/-- Source: `addNode` (lines 23-30): allocates `node-${nodeIdCounter++}`, pushes the
node, and pushes a `default` containment edge from `parent` when one is
given; returns the fresh id. -/
def addNode (label type_ : String) (parent : Option String) (data : JsData)
    (depth : Nat) (s : BuildState) : String × BuildState :=
  let id := nodeIdStr s.nodeIdCounter
  let nodes := s.nodes ++ [{ id := id, label := label, type := type_, data := data, depth := depth }]
  let edges :=
    match parent with
    | some p => s.edges ++ [{ source := p, target := id, type := EdgeType.default }]
    | none => s.edges
  (id, { s with nodeIdCounter := s.nodeIdCounter + 1, nodes := nodes, edges := edges })

/-- Source: `if (x.f) { ...sequence index insert... }` (lines 47-50 and analogues):
record `(entityType, sequenceValue) → nodeId` when the field is truthy. -/
def recordSeq (t : String) (v : Option Json) (nodeId : String) (s : BuildState) : BuildState :=
  if truthy v then
    match v with
    | some k => { s with seqMaps := seqMapsSet t k nodeId s.seqMaps }
    | none => s
  else s

/-- Source: `if (item.id) maps.idToNodeId.set(item.id, itemNodeId)` (line 76). -/
def recordId (v : Option Json) (nodeId : String) (s : BuildState) : BuildState :=
  if truthy v then
    match v with
    | some k => { s with idMap := mapSet k nodeId s.idMap }
    | none => s
  else s

/-- One `Except`-valued step per list element (the body of a `forEach`). -/
def foldSteps (f : Json → BuildState → Except String BuildState) :
    List Json → BuildState → Except String BuildState
  | [], s => .ok s
  | x :: xs, s => (f x s).bind (foldSteps f xs)

/-- Source: `v?.forEach(f)`: skipped when `v` is nullish, iterates when `v` is an
array, and otherwise throws a `TypeError` (`v.forEach` is not callable).
`name` is the source expression, used in the TypeError message. -/
def jsForEach (v : Option Json) (name : String)
    (f : Json → BuildState → Except String BuildState) (s : BuildState) :
    Except String BuildState :=
  match v with
  | none => .ok s
  | some .null => .ok s
  | some (.arr xs) => foldSteps f xs s
  | some _ => .error (name ++ " is not a function")

/-- Source: `Array.prototype.join` element conversion: `null`/`undefined` become the
empty string. -/
def joinElem : Option Json → String
  | none => ""
  | some .null => ""
  | some v => jsToString v

/-- Source: `aggrements.map((a) => a.tcKey)` (line 83): left-to-right, throwing a
`TypeError` on a `null` element. -/
def tcKeysMapped : List Json → Except String (List String)
  | [] => .ok []
  | .null :: _ => .error "Cannot read properties of null (reading tcKey)"
  | a :: rest => (tcKeysMapped rest).map fun r => joinElem (jsGet a "tcKey") :: r

/-- Source: `product.aggrements.map((a) => a.tcKey).join(", ")` (line 83): `.map`
on a non-array throws a `TypeError`. -/
def tcKeysOf (ag : Json) : Except String String :=
  match ag with
  | .arr xs => (tcKeysMapped xs).map (String.intercalate ", ")
  | _ => .error "product.aggrements.map is not a function"

/-- The `service` callback (lines 63-70): label, node, sequence index. -/
def processService (lineNodeId : String) (service : Json) (s : BuildState) :
    Except String BuildState :=
  match service with
  | .null => .error "Cannot read properties of null (reading name)"
  | service =>
    let serviceLabel := "Service: " ++ jsToStringU (jsGet service "name") ++ "#" ++
      jsToStringU (jsGet service "serviceSequence") ++ "#" ++
      jsToStringU (jsGet service "type") ++ "#" ++
      jsToStringU (jsGet service "serviceType") ++ "#" ++
      jsToStringU (jsGet service "action")
    let r := addNode serviceLabel "service" (some lineNodeId) (.val service) 3 s
    .ok (recordSeq "service" (jsGet service "serviceSequence") r.1 r.2)

/-- The `line` callback (lines 54-71): label, node, sequence index, optional
status child (whose data spreads `line.lineStatus` and adds
`activationDate`), then the `services` loop. -/
def processLine (productNodeId : String) (line : Json) (s : BuildState) :
    Except String BuildState :=
  match line with
  | .null => .error "Cannot read properties of null (reading name)"
  | line =>
    let lineLabel := "Line: " ++ jsToStringU (jsGet line "name") ++ "#" ++
      jsToStringU (jsGet line "lineSequence") ++ "#" ++
      jsToStringU (jsGet line "lineType") ++ "#" ++
      jsToStringU (jsGet line "lineAction")
    let r := addNode lineLabel "line" (some productNodeId) (.val line) 2 s
    let lineNodeId := r.1
    let s := recordSeq "line" (jsGet line "lineSequence") lineNodeId r.2
    let s :=
      match jsGet line "lineStatus" with
      | some ls =>
        if truthy (some ls) then
          (addNode ("Status: " ++ jsToStringU (jsGet ls "code") ++ ", " ++
              jsToStringU (jsGet ls "milestone") ++ " (" ++
              toLocaleDateString (jsGet line "activationDate") ++ ")")
            "status" (some lineNodeId)
            (.objU (((spreadFields ls).filter fun kv => kv.1 ≠ "activationDate").map
                (fun kv => (kv.1, some kv.2)) ++
              [("activationDate", jsGet line "activationDate")]))
            3 s).2
        else s
      | none => s
    jsForEach (jsGet line "services") "line.services?.forEach" (processService lineNodeId) s

/-- The `deviceDetails` callback (line 79). -/
def processDevice (itemNodeId : String) (device : Json) (s : BuildState) :
    Except String BuildState :=
  match device with
  | .null => .error "Cannot read properties of null (reading sku)"
  | device =>
    .ok (addNode ("Device: " ++ jsToStringU (jsGet device "sku") ++ "#" ++
        jsToStringU (jsGet device "skuDescription"))
      "object" (some itemNodeId) (.val device) 3 s).2

/-- The `item` callback (lines 73-80): label, node, id index, optional
return/status children, then the `deviceDetails` loop. -/
def processItem (productNodeId : String) (item : Json) (s : BuildState) :
    Except String BuildState :=
  match item with
  | .null => .error "Cannot read properties of null (reading id)"
  | item =>
    let itemLabel := "Item: " ++ jsToStringU (jsGet item "id") ++ "#" ++
      orEmpty (jsIndex0 (jsGet item "itemSequences")) ++ "#" ++
      jsToStringU (jsGet item "itemType") ++ "#" ++
      jsToStringU (jsGet item "itemDescription") ++ "#" ++
      jsToStringU (jsGet item "itemAction")
    let r := addNode itemLabel "item" (some productNodeId) (.val item) 2 s
    let itemNodeId := r.1
    let s := recordId (jsGet item "id") itemNodeId r.2
    let s :=
      match jsGet item "isReturnItem" with
      | some v =>
        (addNode ("Return: " ++ jsToString v) "object" (some itemNodeId)
          (.val (.obj [("isReturnItem", v)])) 3 s).2
      | none => s
    let s :=
      match jsGet item "itemStatus" with
      | some st =>
        if truthy (some st) then
          (addNode ("Status: " ++ jsToStringU (jsGet st "code") ++ ", " ++
              jsToStringU (jsGet st "milestone"))
            "status" (some itemNodeId) (.val st) 3 s).2
        else s
      | none => s
    jsForEach (jsGet item "deviceDetails") "item.deviceDetails?.forEach"
      (processDevice itemNodeId) s

/-- The `product` callback (lines 43-86): label, node, sequence index,
optional status child, `lines` loop, `items` loop, optional agreements
child. -/
def processProduct (orderNodeId : String) (product : Json) (s : BuildState) :
    Except String BuildState :=
  match product with
  | .null => .error "Cannot read properties of null (reading productSequenceNumber)"
  | product =>
    let productLabel := "Product: " ++ jsToStringU (jsGet product "productSequenceNumber") ++
      "#" ++ jsToStringU (jsGet product "lineOfBusiness")
    let r := addNode productLabel "product" (some orderNodeId) (.val product) 1 s
    let productNodeId := r.1
    let s := recordSeq "product" (jsGet product "productSequenceNumber") productNodeId r.2
    let s :=
      match jsGet product "productStatus" with
      | some ps =>
        if truthy (some ps) then
          (addNode ("Status: " ++ jsToStringU (jsGet ps "code") ++ ", " ++
              jsToStringU (jsGet ps "milestone"))
            "status" (some productNodeId) (.val ps) 2 s).2
        else s
      | none => s
    (jsForEach (jsGet product "lines") "product.lines?.forEach"
        (processLine productNodeId) s).bind fun s =>
    (jsForEach (jsGet product "items") "product.items?.forEach"
        (processItem productNodeId) s).bind fun s =>
    match jsGet product "aggrements" with
    | some ag =>
      if truthy (some ag) then
        (tcKeysOf ag).bind fun tcKeys =>
          .ok (addNode ("Agreements: " ++ tcKeys) "object" (some productNodeId)
            (.val ag) 2 s).2
      else .ok s
    | none => .ok s

/-- The `shipment` callback (lines 98-102). -/
def processShipment (fulfillmentNodeId : String) (shipment : Json) (s : BuildState) :
    Except String BuildState :=
  match shipment with
  | .null => .error "Cannot read properties of null (reading shipmentSequence)"
  | shipment =>
    let shipmentLabel := "Shipment: " ++ jsToStringU (jsGet shipment "shipmentSequence") ++
      "#" ++ jsToStringU (jsGet shipment "carrier") ++ "#" ++
      toLocaleDateString (jsGet shipment "shippedDate")
    let r := addNode shipmentLabel "shipment" (some fulfillmentNodeId) (.val shipment) 2 s
    let shipmentNodeId := r.1
    let s :=
      match jsGet shipment "shipmentStatus" with
      | some ss =>
        if truthy (some ss) then
          (addNode ("Status: " ++ jsToString ss) "status" (some shipmentNodeId)
            (.val (.obj [("status", ss)])) 3 r.2).2
        else r.2
      | none => r.2
    .ok s

/-- The `fulfillment` callback (lines 89-103): label, node, sequence index,
optional status child, then the `shipments` loop. -/
def processFulfillment (orderNodeId : String) (fulfillment : Json) (s : BuildState) :
    Except String BuildState :=
  match fulfillment with
  | .null => .error "Cannot read properties of null (reading fulfillmentSequence)"
  | fulfillment =>
    let label := "Fulfillment: " ++ jsToStringU (jsGet fulfillment "fulfillmentSequence") ++
      "#" ++ jsToStringU (jsGet fulfillment "type") ++ "#" ++
      jsToStringU (jsGet fulfillment "name") ++ "#" ++
      jsToStringU (jsGet fulfillment "fulfillmentType")
    let r := addNode label "fulfillment" (some orderNodeId) (.val fulfillment) 1 s
    let fulfillmentNodeId := r.1
    let s := recordSeq "fulfillment" (jsGet fulfillment "fulfillmentSequence")
      fulfillmentNodeId r.2
    let s :=
      match jsGet fulfillment "fulfillmentStatus" with
      | some fs =>
        if truthy (some fs) then
          (addNode ("Status: " ++ jsToStringU (jsGet fs "code")) "status"
            (some fulfillmentNodeId) (.val fs) 2 s).2
        else s
      | none => s
    jsForEach (jsGet fulfillment "shipments") "fulfillment.shipments?.forEach"
      (processShipment fulfillmentNodeId) s

/-- The `promotions` callback (lines 106-113). -/
def processPromotion (orderNodeId : String) (promo : Json) (s : BuildState) :
    Except String BuildState :=
  match promo with
  | .null => .error "Cannot read properties of null (reading name)"
  | promo =>
    let label := "Promo: " ++ jsToStringU (jsGet promo "name") ++ "#" ++
      jsToStringU (jsGet promo "promotionType") ++ "#" ++
      toLocaleDateString (jsGet promo "effectiveDate") ++ "#" ++
      jsToStringU (jsGet promo "status")
    let r := addNode label "promotion" (some orderNodeId) (.val promo) 1 s
    .ok (recordSeq "promotion" (jsGet promo "promotionSequence") r.1 r.2)

/-- The `addresses` callback (lines 115-122). -/
def processAddress (orderNodeId : String) (address : Json) (s : BuildState) :
    Except String BuildState :=
  match address with
  | .null => .error "Cannot read properties of null (reading addressSequence)"
  | address =>
    let label := "Address: " ++ jsToStringU (jsGet address "addressSequence") ++ "#" ++
      jsToStringU (jsGet address "addressClassification") ++ "#" ++
      jsToStringU (jsGet address "zip") ++ "#" ++
      jsToStringU (jsGet address "addressId")
    let r := addNode label "address" (some orderNodeId) (.val address) 1 s
    .ok (recordSeq "address" (jsGet address "addressSequence") r.1 r.2)

/-- The `accounts` callback (lines 124-131). -/
def processAccount (orderNodeId : String) (account : Json) (s : BuildState) :
    Except String BuildState :=
  match account with
  | .null => .error "Cannot read properties of null (reading accountSequence)"
  | account =>
    let label := "Account: " ++ jsToStringU (jsGet account "accountSequence") ++ "#" ++
      jsToStringU (jsGet account "accountType") ++ "#" ++
      jsToStringU (jsGet account "accountSubType") ++ "#" ++
      jsToStringU (jsGet account "billingDeliveryPreference")
    let r := addNode label "account" (some orderNodeId) (.val account) 1 s
    .ok (recordSeq "account" (jsGet account "accountSequence") r.1 r.2)

/-- Lines 37-40: promote `orderContext`, `isCancelable`, `isAmendable` and
`Customer` to child nodes of the order node. -/
def addOrderExtras (data : Json) (orderNodeId : String) (s : BuildState) : BuildState :=
  let s :=
    match jsGet data "orderContext" with
    | some v =>
      if truthy (some v) then
        (addNode ("Context: " ++ jsToString v) "object" (some orderNodeId)
          (.val (.obj [("orderContext", v)])) 1 s).2
      else s
    | none => s
  let s :=
    match jsGet data "isCancelable" with
    | some v =>
      (addNode ("Cancelable: " ++ jsToString v) "object" (some orderNodeId)
        (.val (.obj [("isCancelable", v)])) 1 s).2
    | none => s
  let s :=
    match jsGet data "isAmendable" with
    | some v =>
      (addNode ("Amendable: " ++ jsToString v) "object" (some orderNodeId)
        (.val (.obj [("isAmendable", v)])) 1 s).2
    | none => s
  match jsGet data "Customer" with
  | some c =>
    if truthy (some c) then
      (addNode ("Customer: " ++ jsToStringU (jsGet c "firstName") ++ " " ++
          jsToStringU (jsGet c "lastName"))
        "customer" (some orderNodeId) (.val c) 1 s).2
    else s
  | none => s

/-- Lines 133-137: the event-log node and the order-total node. -/
def addTail (data : Json) (orderNodeId : String) (s : BuildState) : BuildState :=
  let s :=
    match jsGet data "eventLog" with
    | some ev =>
      if truthy (some ev) then
        (addNode ("Event Log (" ++ jsToStringU (jsLength ev) ++ ")") "eventLog"
          (some orderNodeId) (.val ev) 1 s).2
      else s
    | none => s
  match jsGet data "orderTotalPrices" with
  | some otp =>
    match jsIndex0 (some otp) with
    | some price =>
      if truthy (some price) then
        (addNode ("Total: " ++ jsToStringU (jsGet price "totalPriceAfterTax")) "object"
          (some orderNodeId) (.val otp) 1 s).2
      else s
    | none => s
  | none => s

/-- The `(fieldName, targetEntityType)` table of lines 158-165. -/
def referenceKeys : List (String × String) :=
  [("accountSequence", "account"), ("addressSequence", "address"),
   ("serviceAddressSequence", "address"), ("billingAddressSequence", "address"),
   ("fulfillmentSequence", "fulfillment"), ("lineSequence", "line")]

/-- Source: `dataItem[prop]`: a property read on a scanned data item; reading from a
`null` array element throws. -/
def dataItemGet (d : JsData) (k : String) : Except String (Option Json) :=
  match d with
  | .objU fs => .ok (lookupStr k fs).join
  | .val j => jsGetE j k

/-- Total property read on a node payload already known to be truthy and
object-typed (used by the `line`/`fulfillment` blocks, lines 200 and 210). -/
def jsDataGet (d : JsData) (k : String) : Option Json :=
  match d with
  | .objU fs => (lookupStr k fs).join
  | .val j => jsGet j k

/-- The generic sequence-number loop of lines 173-181 over `referenceKeys`. -/
def refSeqScan (maps : SeqMaps) (nodeId : String) (d : JsData) :
    List (String × String) → List Edge → Except String (List Edge)
  | [], edges => .ok edges
  | (prop, t) :: rest, edges =>
    (dataItemGet d prop).bind fun v =>
      let edges :=
        match v with
        | some (.num n) =>
          match seqMapsGet t (.num n) maps with
          | some target =>
            if target ≠ nodeId then
              edges ++ [{ source := nodeId, target := target, type := EdgeType.reference }]
            else edges
          | none => edges
        | _ => edges
      refSeqScan maps nodeId d rest edges

/-- The `adjustments` loop of lines 186-193. -/
def adjScan (maps : SeqMaps) (nodeId : String) :
    List Json → List Edge → Except String (List Edge)
  | [], edges => .ok edges
  | adj :: rest, edges =>
    (jsGetE adj "promotionSequence").bind fun v =>
      let edges :=
        match v with
        | some (.num n) =>
          match seqMapsGet "promotion" (.num n) maps with
          | some target =>
            if target ≠ nodeId then
              edges ++ [{ source := nodeId, target := target, type := EdgeType.reference }]
            else edges
          | none => edges
        | _ => edges
      adjScan maps nodeId rest edges

/-- The `prices` loop of lines 183-196 (each price must be readable; its
`adjustments` are scanned when they are a — necessarily truthy — array). -/
def priceScan (maps : SeqMaps) (nodeId : String) :
    List Json → List Edge → Except String (List Edge)
  | [], edges => .ok edges
  | price :: rest, edges =>
    (jsGetE price "adjustments").bind fun ad =>
      match ad with
      | some (.arr as) => (adjScan maps nodeId as edges).bind (priceScan maps nodeId rest)
      | _ => priceScan maps nodeId rest edges

/-- Scan of one `dataItem` (lines 171-197): the reference-key table, then the
nested price adjustments. -/
def scanDataItem (maps : SeqMaps) (nodeId : String) (d : JsData) (edges : List Edge) :
    Except String (List Edge) :=
  (refSeqScan maps nodeId d referenceKeys edges).bind fun edges =>
  (dataItemGet d "prices").bind fun pv =>
  match pv with
  | some (.arr ps) => priceScan maps nodeId ps edges
  | _ => .ok edges

/-- Source: `for (const dataItem of dataArray)` (line 171). -/
def scanDataItems (maps : SeqMaps) (nodeId : String) :
    List JsData → List Edge → Except String (List Edge)
  | [], edges => .ok edges
  | d :: rest, edges => (scanDataItem maps nodeId d edges).bind (scanDataItems maps nodeId rest)

/-- Source: `Array.isArray(node.data) ? node.data : [node.data]` (line 170). -/
def dataItems : JsData → List JsData
  | .val (.arr xs) => xs.map .val
  | d => [d]

/-- Source: `!(!node.data || typeof node.data !== "object")` (line 168): the node
payload is truthy and of JS type object. -/
def dataIsScannable : JsData → Bool
  | .objU _ => true
  | .val j => truthy (some j) && isObjectType j

/-- The line-to-item loop of lines 200-207 (business-id lookups). -/
def itemSeqScan (idMap : List (Json × String)) (nodeId : String) :
    List Json → List Edge → List Edge
  | [], edges => edges
  | itemId :: rest, edges =>
    let edges :=
      match mapGet itemId idMap with
      | some target =>
        if target ≠ nodeId then
          edges ++ [{ source := nodeId, target := target, type := EdgeType.reference }]
        else edges
      | none => edges
    itemSeqScan idMap nodeId rest edges

/-- Value of a decimal-digit prefix, `none` when there is no digit. -/
def leadingDigits (cs : List Char) : Option Int :=
  match cs.takeWhile Char.isDigit with
  | [] => none
  | ds => some (ds.foldl (fun a c => a * 10 + ((c.toNat : Int) - 48)) 0)

/-- Source: `parseInt(x, 10)`: convert to string, skip leading whitespace, optional
sign, then a digit prefix; `NaN` (no digit) is `none`. -/
def jsParseInt10 (j : Json) : Option Int :=
  match (jsToString j).data.dropWhile
      (fun c => c = ' ' || c = '\t' || c = '\n' || c = '\r') with
  | '-' :: rest => (leadingDigits rest).map Neg.neg
  | '+' :: rest => leadingDigits rest
  | cs => leadingDigits cs

/-- The fulfillment-to-product loop of lines 210-220. -/
def prodSeqScan (maps : SeqMaps) (nodeId : String) :
    List Json → List Edge → List Edge
  | [], edges => edges
  | seqStr :: rest, edges =>
    let edges :=
      match jsParseInt10 seqStr with
      | some n =>
        match seqMapsGet "product" (.num n) maps with
        | some target =>
          if target ≠ nodeId then
            edges ++ [{ source := nodeId, target := target, type := EdgeType.reference }]
          else edges
        | none => edges
      | none => edges
    prodSeqScan maps nodeId rest edges

/-- The per-node body of `createReferenceEdges` (lines 167-221). -/
def refEdgesForNode (maps : SeqMaps) (idMap : List (Json × String)) (node : Node)
    (edges : List Edge) : Except String (List Edge) :=
  if dataIsScannable node.data then
    (scanDataItems maps node.id (dataItems node.data) edges).bind fun edges =>
      let edges :=
        if node.type = "line" then
          match jsDataGet node.data "itemSequences" with
          | some (.arr xs) => itemSeqScan idMap node.id xs edges
          | _ => edges
        else edges
      let edges :=
        if node.type = "fulfillment" then
          match jsDataGet node.data "productSequenceNumber" with
          | some (.arr xs) => prodSeqScan maps node.id xs edges
          | _ => edges
        else edges
      .ok edges
  else .ok edges

/-- Source: `createReferenceEdges(nodes, edges, maps)` (lines 150-222): appends
`reference` edges to `edges`, one pass over all nodes. -/
def createReferenceEdges (maps : SeqMaps) (idMap : List (Json × String)) :
    List Node → List Edge → Except String (List Edge)
  | [], edges => .ok edges
  | node :: rest, edges =>
    (refEdgesForNode maps idMap node edges).bind (createReferenceEdges maps idMap rest)

/-- The empty state built at lines 9-16 together with the reset of the
module-level counter at line 11 (`nodeIdCounter = 0`). -/
def initialState : BuildState :=
  { nodeIdCounter := 0, nodes := [], edges := [], seqMaps := [], idMap := [] }

/-- The body of the `try` block after a successful parse (lines 9-140):
empty graph for a root that is not object-typed or is `null`, otherwise the
fixed domain-aware traversal followed by reference resolution. -/
def buildFrom (data : Json) : Except String GraphData :=
  match data with
  | .null => .ok { nodes := [], edges := [] }
  | data =>
    if isObjectType data = false then .ok { nodes := [], edges := [] }
    else
      let orderVertexData : JsData := .objU
        [("orderId", jsGet data "orderId"), ("orderDate", jsGet data "orderDate"),
         ("orderingChannel", jsGet data "orderingChannel"),
         ("originatingSystem", jsGet data "originatingSystem")]
      let r := addNode ("Order: " ++ jsToStringU (jsGet data "orderId")) "order" none
        orderVertexData 0 initialState
      let orderNodeId := r.1
      let s := addOrderExtras data orderNodeId r.2
      (jsForEach (jsGet data "products") "data.products?.forEach"
          (processProduct orderNodeId) s).bind fun s =>
      (jsForEach (jsGet data "fulfillments") "data.fulfillments?.forEach"
          (processFulfillment orderNodeId) s).bind fun s =>
      (jsForEach (jsGet data "promotions") "data.promotions?.forEach"
          (processPromotion orderNodeId) s).bind fun s =>
      (jsForEach (jsGet data "addresses") "data.addresses?.forEach"
          (processAddress orderNodeId) s).bind fun s =>
      (jsForEach (jsGet data "accounts") "data.accounts?.forEach"
          (processAccount orderNodeId) s).bind fun s =>
      let s := addTail data orderNodeId s
      (createReferenceEdges s.seqMaps s.idMap s.nodes s.edges).bind fun edges =>
      .ok { nodes := s.nodes, edges := edges }

/-- The message of the non-`Error` catch branch (line 146).  Unreachable in
fact: every value the build can throw is an `Error` instance. -/
def unknownErrorMessage : String := "An unknown error occurred while parsing JSON."

/-- Source: `jsonToGraphData` (lines 6-148).  `prevCounter` is the value the
module-level `nodeIdCounter` (line 3) holds when the call starts — whatever a
previous call left behind; line 11 overwrites it with 0 (see `initialState`),
which is exactly why the result cannot depend on it.  `parsed` is the outcome
of the `JSON.parse` call of line 8 (`.error m` = a `SyntaxError` with message
`m`).  The catch block (lines 142-147) receives either that `SyntaxError` or
a `TypeError` thrown by the traversal; both are `Error` instances, so it
always re-throws `Invalid JSON: ` ++ the original message, and the
non-`Error` branch with `unknownErrorMessage` is dead. -/
def jsonToGraphData (prevCounter : Nat) (parsed : Except String Json) :
    Except String GraphData :=
  match parsed.bind buildFrom with
  | .ok g => .ok g
  | .error message => .error ("Invalid JSON: " ++ message)

/-! Section: Concrete documents used by the claims -/

/-- The graph of a successful build outcome (junk on an error outcome). -/
def graphOf (r : Except String GraphData) : GraphData :=
  match r with
  | .ok g => g
  | .error _ => { nodes := [], edges := [] }

/-- A sibling collection (`fulfillments`) whose two children both carry the
numeric sequence field `sequenceNumber`, in input order 2 then 1. -/
def seqSiblingsDoc : Json := .obj [
  ("fulfillments", .arr [
    .obj [("sequenceNumber", .num 2)],
    .obj [("sequenceNumber", .num 1)]])]

/-- The graph built from `seqSiblingsDoc`. -/
def seqSiblingsGraph : GraphData := graphOf (jsonToGraphData 0 (.ok seqSiblingsDoc))

/-- A document with an `amendedDetails` list of `{newId, oldId}` pairs whose
two ids both belong to items of the document (so both resolve in the
business-id index the build constructs). -/
def amendedDoc : Json := .obj [
  ("amendedDetails", .arr [.obj [("newId", .str "N"), ("oldId", .str "O")]]),
  ("products", .arr [.obj [("items", .arr [
    .obj [("id", .str "N")], .obj [("id", .str "O")]])]])]

/-- The graph built from `amendedDoc`. -/
def amendedGraph : GraphData := graphOf (jsonToGraphData 0 (.ok amendedDoc))

/-- The reference-resolution scenario document of the specification, with the
`addressSequence` of the line as a parameter (5 = the matching address). -/
def scenarioDoc (n : Int) : Json := .obj [
  ("orderId", .str "O1"),
  ("products", .arr [.obj [
    ("productSequenceNumber", .num 1),
    ("lines", .arr [.obj [("lineSequence", .num 10), ("addressSequence", .num n)]])]]),
  ("addresses", .arr [.obj [("addressSequence", .num 5)]])]

/-- The graph built from `scenarioDoc 5` (the matched-reference scenario). -/
def scenarioGraph : GraphData := graphOf (jsonToGraphData 0 (.ok (scenarioDoc 5)))

/-- A parseable document with a dangling cross-reference (`addressSequence`
99 and no addresses at all) that the build nevertheless cannot traverse: the
retained `eventLog` array also holds a `null` element, and reference
resolution reads properties of every scanned data item. -/
def danglingNullDoc : Json :=
  .obj [("eventLog", .arr [.obj [("addressSequence", .num 99)], .null])]

/-- A document whose line refers to items by business id: `itemSequences`
holds the single id `s`, while the only item of the document has id `N`
(so for `s` other than `N` the id lookup finds no matching entity). -/
def itemRefDoc (s : String) : Json := .obj [
  ("orderId", .str "O1"),
  ("products", .arr [.obj [
    ("lines", .arr [.obj [("itemSequences", .arr [.str s])]]),
    ("items", .arr [.obj [("id", .str "N")]])]])]

/-- A top-level value for which the traversal throws: `products` is a truthy
non-array, so `data.products?.forEach` is a `TypeError`. -/
def badProductsDoc : Json := .obj [("products", .num 5)]

/-- The graph built from the empty object document `{}`. -/
def emptyObjGraph : GraphData := graphOf (jsonToGraphData 0 (.ok (.obj [])))


/-! Section: Auxiliary notions for the general theorems -/

/-- Canonical decimal digit-character list of a natural number. -/
def tsd (n : Nat) : List Char :=
  if n = 0 then ['0'] else ((Nat.digits 10 n).map Nat.digitChar).reverse

/-- Invariant of the build state throughout the traversal: the counter equals
the number of nodes; node ids are `node-0 … node-(k-1)` in creation order;
the edges so far are exactly the containment edges, one targeting each node
except the first (the root); the first node is the depth-0 order root. -/
structure Inv (s : BuildState) : Prop where
  counter_eq : s.nodeIdCounter = s.nodes.length
  ids_eq : s.nodes.map Node.id = (List.range s.nodes.length).map nodeIdStr
  targets_eq : s.edges.map Edge.target = (s.nodes.map Node.id).drop 1
  all_default : ∀ e ∈ s.edges, e.type = EdgeType.default
  nonempty : s.nodes ≠ []
  head_root : s.nodes.head?.map (fun nd => (nd.id, nd.type, nd.depth)) =
    some ("node-0", "order", 0)

/-- What reference resolution does to the edge list: appends only
`reference`-typed edges. -/
def RefAppend (edges edges' : List Edge) : Prop :=
  ∃ app, edges' = edges ++ app ∧ ∀ e ∈ app, e.type = EdgeType.reference

/-- Invariant of a successfully built non-empty graph. -/
structure GraphInv (g : GraphData) : Prop where
  ids_eq : g.nodes.map Node.id = (List.range g.nodes.length).map nodeIdStr
  nonempty : g.nodes ≠ []
  head_root : g.nodes.head?.map (fun nd => (nd.id, nd.type, nd.depth)) =
    some ("node-0", "order", 0)
  default_targets : ((g.edges.filter fun e => e.type == EdgeType.default).map Edge.target) =
    (g.nodes.map Node.id).drop 1
  types_ok : ∀ e ∈ g.edges, e.type = EdgeType.default ∨ e.type = EdgeType.reference

/-- The graph the build returns for any bare top-level array: just the order
root (arrays have none of the order fields). -/
def arrRootGraph : GraphData :=
  { nodes := [⟨"node-0", "Order: undefined", "order",
      .objU [("orderId", none), ("orderDate", none),
        ("orderingChannel", none), ("originatingSystem", none)], 0⟩],
    edges := [] }

/-! Section: Decimal rendering of node ids is injective -/

theorem toDigitsCore_eq_tsd (fuel : Nat) :
    ∀ (n : Nat) (ds : List Char), n < fuel →
      Nat.toDigitsCore 10 fuel n ds = tsd n ++ ds := by
  induction fuel with
  | zero => omega
  | succ f ih =>
    intro n ds h
    have hstep : Nat.toDigitsCore 10 (f + 1) n ds =
        (if n / 10 = 0 then (n % 10).digitChar :: ds
         else Nat.toDigitsCore 10 f (n / 10) ((n % 10).digitChar :: ds)) := rfl
    rw [hstep]
    by_cases h0 : n / 10 = 0
    · rw [if_pos h0]
      by_cases hn : n = 0
      · subst hn; simp [tsd, Nat.digitChar]
      · have h10 : n < 10 := by omega
        have hd : Nat.digits 10 n = [n] := by
          rw [Nat.digits_def' (by norm_num) (Nat.pos_of_ne_zero hn), h0]
          simp [Nat.mod_eq_of_lt h10]
        simp [tsd, hn, hd, Nat.mod_eq_of_lt h10]
    · rw [if_neg h0]
      have hn : n ≠ 0 := by omega
      have hlt : n / 10 < f := by
        have h1 : n / 10 < n := Nat.div_lt_self (by omega) (by norm_num)
        omega
      rw [ih (n / 10) _ hlt]
      have hd : Nat.digits 10 n = n % 10 :: Nat.digits 10 (n / 10) :=
        Nat.digits_def' (by norm_num) (Nat.pos_of_ne_zero hn)
      simp [tsd, hn, h0, hd, List.append_assoc]

theorem repr_eq_tsd (n : Nat) : Nat.repr n = ⟨tsd n⟩ := by
  show (Nat.toDigits 10 n).asString = _
  unfold Nat.toDigits
  rw [toDigitsCore_eq_tsd (n + 1) n [] (by omega)]
  simp [List.asString]

theorem digitChar_inj_lt : ∀ a < 10, ∀ b < 10, Nat.digitChar a = Nat.digitChar b → a = b := by
  decide

theorem map_digitChar_inj : ∀ (l1 l2 : List Nat), (∀ d ∈ l1, d < 10) → (∀ d ∈ l2, d < 10) →
    l1.map Nat.digitChar = l2.map Nat.digitChar → l1 = l2 := by
  intro l1
  induction l1 with
  | nil => intro l2 _ _ h; cases l2 <;> simp_all
  | cons a t ih =>
    intro l2 h1 h2 h
    cases l2 with
    | nil => simp_all
    | cons b t2 =>
      simp only [List.map_cons, List.cons.injEq] at h
      have ha := h1 a (by simp)
      have hb := h2 b (by simp)
      have : a = b := digitChar_inj_lt a ha b hb h.1
      subst this
      have := ih t2 (fun d hd => h1 d (by simp [hd])) (fun d hd => h2 d (by simp [hd])) h.2
      simp [this]

theorem tsd_inj (m n : Nat) (h : tsd m = tsd n) : m = n := by
  have key : ∀ k, k ≠ 0 → ¬(tsd k = ['0']) := by
    intro k hk hcon
    unfold tsd at hcon
    rw [if_neg hk] at hcon
    have h2 : (Nat.digits 10 k).map Nat.digitChar = ['0'] := by
      have := congrArg List.reverse hcon
      simpa using this
    have h3 : Nat.digits 10 k = [0] := by
      apply map_digitChar_inj _ [0] (fun d hd => Nat.digits_lt_base (by norm_num) hd)
        (by simp) (by simp [h2, Nat.digitChar])
    have h4 := Nat.ofDigits_digits 10 k
    rw [h3] at h4
    simp [Nat.ofDigits] at h4
    omega
  by_cases hm : m = 0 <;> by_cases hn : n = 0
  · omega
  · exfalso; exact key n hn (by rw [← h]; simp [tsd, hm])
  · exfalso; exact key m hm (by rw [h]; simp [tsd, hn])
  · unfold tsd at h
    rw [if_neg hm, if_neg hn] at h
    have h2 : (Nat.digits 10 m).map Nat.digitChar = (Nat.digits 10 n).map Nat.digitChar := by
      have := congrArg List.reverse h
      simpa using this
    have h3 := map_digitChar_inj _ _ (fun d hd => Nat.digits_lt_base (by norm_num) hd)
      (fun d hd => Nat.digits_lt_base (by norm_num) hd) h2
    have h4 := Nat.ofDigits_digits 10 m
    have h5 := Nat.ofDigits_digits 10 n
    rw [h3] at h4
    omega

theorem nodeIdStr_injective : Function.Injective nodeIdStr := by
  intro m n h
  unfold nodeIdStr at h
  have h' : "node-" ++ Nat.repr m = "node-" ++ Nat.repr n := h
  have hd := congrArg String.data h'
  rw [String.data_append, String.data_append] at hd
  have hd2 : (Nat.repr m).data = (Nat.repr n).data := by
    exact List.append_cancel_left hd
  rw [repr_eq_tsd, repr_eq_tsd] at hd2
  exact tsd_inj m n hd2

/-! Section: Build-state invariant and its preservation -/

theorem bind_ok_elim {α β : Type} (x : Except String α) (f : α → Except String β) (b : β)
    (h : x.bind f = .ok b) : ∃ a, x = .ok a ∧ f a = .ok b := by
  cases x with
  | error e => exact absurd h (by simp [Except.bind])
  | ok a => exact ⟨a, rfl, by simpa [Except.bind] using h⟩

theorem Inv_addNode (lb t : String) (p : String) (d : JsData) (dep : Nat)
    (s : BuildState) (h : Inv s) : Inv (addNode lb t (some p) d dep s).2 := by
  obtain ⟨h1, h2, h3, h4, h5, h6⟩ := h
  obtain ⟨x, rest, hx⟩ := List.exists_cons_of_ne_nil h5
  refine ⟨?_, ?_, ?_, ?_, ?_, ?_⟩
  · simp [addNode, h1]
  · simp only [addNode, List.map_append, List.length_append, List.map_cons, List.map_nil,
      List.length_cons, List.length_nil]
    rw [h2, h1]
    rw [show s.nodes.length + (0 + 1) = s.nodes.length + 1 by omega, List.range_succ]
    simp
  · simp only [addNode, List.map_append, List.map_cons, List.map_nil]
    rw [h3, hx]
    simp
  · intro e he
    simp only [addNode] at he
    rw [List.mem_append] at he
    rcases he with he | he
    · exact h4 e he
    · simp only [List.mem_singleton] at he
      subst he
      rfl
  · simp [addNode, hx]
  · simp only [addNode]
    rw [hx] at h6 ⊢
    simpa using h6

theorem Inv_recordSeq (t : String) (v : Option Json) (nid : String) (s : BuildState)
    (h : Inv s) : Inv (recordSeq t v nid s) := by
  unfold recordSeq
  split
  · split
    · exact ⟨h.counter_eq, h.ids_eq, h.targets_eq, h.all_default, h.nonempty, h.head_root⟩
    · exact h
  · exact h

theorem Inv_recordId (v : Option Json) (nid : String) (s : BuildState)
    (h : Inv s) : Inv (recordId v nid s) := by
  unfold recordId
  split
  · split
    · exact ⟨h.counter_eq, h.ids_eq, h.targets_eq, h.all_default, h.nonempty, h.head_root⟩
    · exact h
  · exact h

theorem Inv_foldSteps (f : Json → BuildState → Except String BuildState)
    (hf : ∀ x a b, Inv a → f x a = .ok b → Inv b) :
    ∀ (xs : List Json) (s s' : BuildState), Inv s → foldSteps f xs s = .ok s' → Inv s' := by
  intro xs
  induction xs with
  | nil =>
    intro s s' h hok
    simp only [foldSteps, Except.ok.injEq] at hok
    exact hok ▸ h
  | cons x t ih =>
    intro s s' h hok
    simp only [foldSteps] at hok
    obtain ⟨a, ha, hb⟩ := bind_ok_elim _ _ _ hok
    exact ih a s' (hf x s a h ha) hb

theorem Inv_jsForEach (v : Option Json) (name : String)
    (f : Json → BuildState → Except String BuildState)
    (hf : ∀ x a b, Inv a → f x a = .ok b → Inv b)
    (s s' : BuildState) (h : Inv s) (hok : jsForEach v name f s = .ok s') : Inv s' := by
  match v with
  | none =>
    simp only [jsForEach, Except.ok.injEq] at hok
    exact hok ▸ h
  | some .null =>
    simp only [jsForEach, Except.ok.injEq] at hok
    exact hok ▸ h
  | some (.arr xs) =>
    exact Inv_foldSteps f hf xs s s' h (by simpa [jsForEach] using hok)
  | some (.bool b) => simp [jsForEach] at hok
  | some (.num n) => simp [jsForEach] at hok
  | some (.str st) => simp [jsForEach] at hok
  | some (.obj fs) => simp [jsForEach] at hok

theorem Inv_processService (lid : String) (service : Json) (s s' : BuildState) (h : Inv s)
    (hok : processService lid service s = .ok s') : Inv s' := by
  cases service
  case null => simp [processService] at hok
  all_goals
    simp only [processService, Except.ok.injEq] at hok
    subst hok
    exact Inv_recordSeq _ _ _ _ (Inv_addNode _ _ _ _ _ _ h)

theorem Inv_processDevice (iid : String) (device : Json) (s s' : BuildState) (h : Inv s)
    (hok : processDevice iid device s = .ok s') : Inv s' := by
  cases device
  case null => simp [processDevice] at hok
  all_goals
    simp only [processDevice, Except.ok.injEq] at hok
    subst hok
    exact Inv_addNode _ _ _ _ _ _ h

theorem Inv_processLine (pid : String) (line : Json) (s s' : BuildState) (h : Inv s)
    (hok : processLine pid line s = .ok s') : Inv s' := by
  cases line
  case null => simp [processLine] at hok
  all_goals
    simp only [processLine] at hok
    refine Inv_jsForEach _ _ _ (fun x a b ha hb => Inv_processService _ _ _ _ ha hb) _ _ ?_ hok
    repeat first
      | assumption
      | apply Inv_addNode
      | apply Inv_recordSeq
      | split

theorem Inv_processItem (pid : String) (item : Json) (s s' : BuildState) (h : Inv s)
    (hok : processItem pid item s = .ok s') : Inv s' := by
  cases item
  case null => simp [processItem] at hok
  all_goals
    simp only [processItem] at hok
    refine Inv_jsForEach _ _ _ (fun x a b ha hb => Inv_processDevice _ _ _ _ ha hb) _ _ ?_ hok
    repeat first
      | assumption
      | apply Inv_addNode
      | apply Inv_recordSeq
      | apply Inv_recordId
      | split

theorem Inv_processProduct (oid : String) (product : Json) (s s' : BuildState) (h : Inv s)
    (hok : processProduct oid product s = .ok s') : Inv s' := by
  cases product
  case null => simp [processProduct] at hok
  all_goals
    simp only [processProduct] at hok
    obtain ⟨s1, hs1, hok⟩ := bind_ok_elim _ _ _ hok
    obtain ⟨s2, hs2, hok⟩ := bind_ok_elim _ _ _ hok
    have h1 : Inv s1 := by
      refine Inv_jsForEach _ _ _ (fun x a b ha hb => Inv_processLine _ _ _ _ ha hb) _ _ ?_ hs1
      repeat first
        | assumption
        | apply Inv_addNode
        | apply Inv_recordSeq
        | split
    have h2 : Inv s2 :=
      Inv_jsForEach _ _ _ (fun x a b ha hb => Inv_processItem _ _ _ _ ha hb) _ _ h1 hs2
    split at hok
    · split at hok
      · obtain ⟨tk, htk, hok⟩ := bind_ok_elim _ _ _ hok
        simp only [Except.ok.injEq] at hok
        subst hok
        exact Inv_addNode _ _ _ _ _ _ h2
      · simp only [Except.ok.injEq] at hok
        subst hok
        exact h2
    · simp only [Except.ok.injEq] at hok
      subst hok
      exact h2

theorem Inv_processShipment (fid : String) (shipment : Json) (s s' : BuildState) (h : Inv s)
    (hok : processShipment fid shipment s = .ok s') : Inv s' := by
  cases shipment
  case null => simp [processShipment] at hok
  all_goals
    simp only [processShipment, Except.ok.injEq] at hok
    subst hok
    repeat first
      | assumption
      | apply Inv_addNode
      | split

theorem Inv_processFulfillment (oid : String) (fulfillment : Json) (s s' : BuildState)
    (h : Inv s) (hok : processFulfillment oid fulfillment s = .ok s') : Inv s' := by
  cases fulfillment
  case null => simp [processFulfillment] at hok
  all_goals
    simp only [processFulfillment] at hok
    refine Inv_jsForEach _ _ _ (fun x a b ha hb => Inv_processShipment _ _ _ _ ha hb) _ _ ?_ hok
    repeat first
      | assumption
      | apply Inv_addNode
      | apply Inv_recordSeq
      | split

theorem Inv_processPromotion (oid : String) (promo : Json) (s s' : BuildState) (h : Inv s)
    (hok : processPromotion oid promo s = .ok s') : Inv s' := by
  cases promo
  case null => simp [processPromotion] at hok
  all_goals
    simp only [processPromotion, Except.ok.injEq] at hok
    subst hok
    exact Inv_recordSeq _ _ _ _ (Inv_addNode _ _ _ _ _ _ h)

theorem Inv_processAddress (oid : String) (address : Json) (s s' : BuildState) (h : Inv s)
    (hok : processAddress oid address s = .ok s') : Inv s' := by
  cases address
  case null => simp [processAddress] at hok
  all_goals
    simp only [processAddress, Except.ok.injEq] at hok
    subst hok
    exact Inv_recordSeq _ _ _ _ (Inv_addNode _ _ _ _ _ _ h)

theorem Inv_processAccount (oid : String) (account : Json) (s s' : BuildState) (h : Inv s)
    (hok : processAccount oid account s = .ok s') : Inv s' := by
  cases account
  case null => simp [processAccount] at hok
  all_goals
    simp only [processAccount, Except.ok.injEq] at hok
    subst hok
    exact Inv_recordSeq _ _ _ _ (Inv_addNode _ _ _ _ _ _ h)

theorem Inv_addOrderExtras (data : Json) (oid : String) (s : BuildState) (h : Inv s) :
    Inv (addOrderExtras data oid s) := by
  simp only [addOrderExtras]
  repeat first
    | assumption
    | apply Inv_addNode
    | split

theorem Inv_addTail (data : Json) (oid : String) (s : BuildState) (h : Inv s) :
    Inv (addTail data oid s) := by
  simp only [addTail]
  repeat first
    | assumption
    | apply Inv_addNode
    | split

theorem Inv_root (lb : String) (d : JsData) :
    Inv (addNode lb "order" none d 0 initialState).2 := by
  refine ⟨rfl, rfl, rfl, ?_, ?_, rfl⟩
  · intro e he
    simp [addNode, initialState] at he
  · simp [addNode, initialState]

/-! Section: Reference resolution only appends reference edges -/

theorem refAppend_self (edges : List Edge) : RefAppend edges edges :=
  ⟨[], by simp, by simp⟩

theorem refAppend_push (edges : List Edge) (nid target : String) :
    RefAppend edges (edges ++ [{ source := nid, target := target, type := EdgeType.reference }]) :=
  ⟨[{ source := nid, target := target, type := EdgeType.reference }], rfl, by simp⟩

theorem refAppend_trans {a b c : List Edge} (h1 : RefAppend a b) (h2 : RefAppend b c) :
    RefAppend a c := by
  obtain ⟨ap1, rfl, hap1⟩ := h1
  obtain ⟨ap2, rfl, hap2⟩ := h2
  refine ⟨ap1 ++ ap2, by simp, ?_⟩
  intro e he
  rcases List.mem_append.mp he with he | he
  · exact hap1 e he
  · exact hap2 e he

theorem itemSeqScan_refAppend (idMap : List (Json × String)) (nid : String) :
    ∀ (xs : List Json) (edges : List Edge), RefAppend edges (itemSeqScan idMap nid xs edges) := by
  intro xs
  induction xs with
  | nil => intro edges; exact refAppend_self _
  | cons x t ih =>
    intro edges
    simp only [itemSeqScan]
    refine refAppend_trans ?_ (ih _)
    repeat first
      | exact refAppend_self _
      | exact refAppend_push _ _ _
      | split

theorem prodSeqScan_refAppend (maps : SeqMaps) (nid : String) :
    ∀ (xs : List Json) (edges : List Edge), RefAppend edges (prodSeqScan maps nid xs edges) := by
  intro xs
  induction xs with
  | nil => intro edges; exact refAppend_self _
  | cons x t ih =>
    intro edges
    simp only [prodSeqScan]
    refine refAppend_trans ?_ (ih _)
    repeat first
      | exact refAppend_self _
      | exact refAppend_push _ _ _
      | split

theorem refSeqScan_refAppend (maps : SeqMaps) (nid : String) (d : JsData) :
    ∀ (ks : List (String × String)) (edges edges' : List Edge),
      refSeqScan maps nid d ks edges = .ok edges' → RefAppend edges edges' := by
  intro ks
  induction ks with
  | nil =>
    intro edges edges' h
    simp only [refSeqScan, Except.ok.injEq] at h
    exact h ▸ refAppend_self _
  | cons k t ih =>
    intro edges edges' h
    obtain ⟨prop, ty⟩ := k
    simp only [refSeqScan] at h
    obtain ⟨v, hv, h⟩ := bind_ok_elim _ _ _ h
    refine refAppend_trans ?_ (ih _ _ h)
    repeat first
      | exact refAppend_self _
      | exact refAppend_push _ _ _
      | split

theorem adjScan_refAppend (maps : SeqMaps) (nid : String) :
    ∀ (as : List Json) (edges edges' : List Edge),
      adjScan maps nid as edges = .ok edges' → RefAppend edges edges' := by
  intro as
  induction as with
  | nil =>
    intro edges edges' h
    simp only [adjScan, Except.ok.injEq] at h
    exact h ▸ refAppend_self _
  | cons a t ih =>
    intro edges edges' h
    simp only [adjScan] at h
    obtain ⟨v, hv, h⟩ := bind_ok_elim _ _ _ h
    refine refAppend_trans ?_ (ih _ _ h)
    repeat first
      | exact refAppend_self _
      | exact refAppend_push _ _ _
      | split

theorem priceScan_refAppend (maps : SeqMaps) (nid : String) :
    ∀ (ps : List Json) (edges edges' : List Edge),
      priceScan maps nid ps edges = .ok edges' → RefAppend edges edges' := by
  intro ps
  induction ps with
  | nil =>
    intro edges edges' h
    simp only [priceScan, Except.ok.injEq] at h
    exact h ▸ refAppend_self _
  | cons p t ih =>
    intro edges edges' h
    simp only [priceScan] at h
    obtain ⟨ad, had, h⟩ := bind_ok_elim _ _ _ h
    split at h
    · obtain ⟨e1, he1, h⟩ := bind_ok_elim _ _ _ h
      exact refAppend_trans (adjScan_refAppend _ _ _ _ _ he1) (ih _ _ h)
    · exact ih _ _ h

theorem scanDataItem_refAppend (maps : SeqMaps) (nid : String) (d : JsData)
    (edges edges' : List Edge) (h : scanDataItem maps nid d edges = .ok edges') :
    RefAppend edges edges' := by
  simp only [scanDataItem] at h
  obtain ⟨e1, he1, h⟩ := bind_ok_elim _ _ _ h
  obtain ⟨pv, hpv, h⟩ := bind_ok_elim _ _ _ h
  refine refAppend_trans (refSeqScan_refAppend _ _ _ _ _ _ he1) ?_
  split at h
  · exact priceScan_refAppend _ _ _ _ _ h
  · simp only [Except.ok.injEq] at h
    exact h ▸ refAppend_self _

theorem scanDataItems_refAppend (maps : SeqMaps) (nid : String) :
    ∀ (ds : List JsData) (edges edges' : List Edge),
      scanDataItems maps nid ds edges = .ok edges' → RefAppend edges edges' := by
  intro ds
  induction ds with
  | nil =>
    intro edges edges' h
    simp only [scanDataItems, Except.ok.injEq] at h
    exact h ▸ refAppend_self _
  | cons d t ih =>
    intro edges edges' h
    simp only [scanDataItems] at h
    obtain ⟨e1, he1, h⟩ := bind_ok_elim _ _ _ h
    exact refAppend_trans (scanDataItem_refAppend _ _ _ _ _ he1) (ih _ _ h)

theorem refEdgesForNode_refAppend (maps : SeqMaps) (idMap : List (Json × String)) (node : Node)
    (edges edges' : List Edge) (h : refEdgesForNode maps idMap node edges = .ok edges') :
    RefAppend edges edges' := by
  simp only [refEdgesForNode] at h
  split at h
  · obtain ⟨e1, he1, h⟩ := bind_ok_elim _ _ _ h
    simp only [Except.ok.injEq] at h
    subst h
    refine refAppend_trans (scanDataItems_refAppend _ _ _ _ _ he1) ?_
    repeat first
      | exact refAppend_self _
      | exact itemSeqScan_refAppend _ _ _ _
      | exact prodSeqScan_refAppend _ _ _ _
      | exact refAppend_trans (itemSeqScan_refAppend _ _ _ _) (prodSeqScan_refAppend _ _ _ _)
      | split
  · simp only [Except.ok.injEq] at h
    exact h ▸ refAppend_self _

theorem createReferenceEdges_refAppend (maps : SeqMaps) (idMap : List (Json × String)) :
    ∀ (nodes : List Node) (edges edges' : List Edge),
      createReferenceEdges maps idMap nodes edges = .ok edges' → RefAppend edges edges' := by
  intro nodes
  induction nodes with
  | nil =>
    intro edges edges' h
    simp only [createReferenceEdges, Except.ok.injEq] at h
    exact h ▸ refAppend_self _
  | cons nd t ih =>
    intro edges edges' h
    simp only [createReferenceEdges] at h
    obtain ⟨e1, he1, h⟩ := bind_ok_elim _ _ _ h
    exact refAppend_trans (refEdgesForNode_refAppend _ _ _ _ _ he1) (ih _ _ h)

theorem graphInv_of_inv_refAppend (s : BuildState) (edges' : List Edge) (h : Inv s)
    (hr : RefAppend s.edges edges') : GraphInv { nodes := s.nodes, edges := edges' } := by
  obtain ⟨app, rfl, happ⟩ := hr
  refine ⟨h.ids_eq, h.nonempty, h.head_root, ?_, ?_⟩
  · rw [List.filter_append]
    have hf1 : s.edges.filter (fun e => e.type == EdgeType.default) = s.edges :=
      List.filter_eq_self.mpr (fun e he => by simp [h.all_default e he])
    have hf2 : app.filter (fun e => e.type == EdgeType.default) = [] := by
      rw [List.filter_eq_nil_iff]
      intro e he
      simp [happ e he]
    rw [hf1, hf2, List.append_nil]
    exact h.targets_eq
  · intro e he
    rcases List.mem_append.mp he with he | he
    · exact Or.inl (h.all_default e he)
    · exact Or.inr (happ e he)

/-! Section: Assembly: every successful build satisfies the graph invariant -/

theorem buildFrom_obj_graphInv (fs : List (String × Json)) (g : GraphData)
    (h : buildFrom (.obj fs) = .ok g) : GraphInv g := by
  simp only [buildFrom, isObjectType, Bool.true_eq_false, if_false] at h
  obtain ⟨sp, hp, h⟩ := bind_ok_elim _ _ _ h
  obtain ⟨sf, hf, h⟩ := bind_ok_elim _ _ _ h
  obtain ⟨spr, hpr, h⟩ := bind_ok_elim _ _ _ h
  obtain ⟨sa, ha, h⟩ := bind_ok_elim _ _ _ h
  obtain ⟨sac, hac, h⟩ := bind_ok_elim _ _ _ h
  obtain ⟨edges', hce, h⟩ := bind_ok_elim _ _ _ h
  simp only [Except.ok.injEq] at h
  subst h
  have h1 : Inv sp :=
    Inv_jsForEach _ _ _ (fun x a b ha hb => Inv_processProduct _ _ _ _ ha hb) _ _
      (Inv_addOrderExtras _ _ _ (Inv_root _ _)) hp
  have h2 : Inv sf :=
    Inv_jsForEach _ _ _ (fun x a b ha hb => Inv_processFulfillment _ _ _ _ ha hb) _ _ h1 hf
  have h3 : Inv spr :=
    Inv_jsForEach _ _ _ (fun x a b ha hb => Inv_processPromotion _ _ _ _ ha hb) _ _ h2 hpr
  have h4 : Inv sa :=
    Inv_jsForEach _ _ _ (fun x a b ha hb => Inv_processAddress _ _ _ _ ha hb) _ _ h3 ha
  have h5 : Inv sac :=
    Inv_jsForEach _ _ _ (fun x a b ha hb => Inv_processAccount _ _ _ _ ha hb) _ _ h4 hac
  exact graphInv_of_inv_refAppend _ _ (Inv_addTail _ _ _ h5)
    (createReferenceEdges_refAppend _ _ _ _ _ hce)

theorem jsonToGraphData_ok_buildFrom (prev : Nat) (data : Json) (g : GraphData)
    (h : jsonToGraphData prev (.ok data) = .ok g) : buildFrom data = .ok g := by
  unfold jsonToGraphData at h
  simp only [Except.bind] at h
  rcases hb : buildFrom data with m | g0
  · rw [hb] at h
    exact absurd h (by simp)
  · rw [hb] at h
    simp only [Except.ok.injEq] at h
    rw [h]

theorem graphInv_arrRootGraph : GraphInv arrRootGraph := by
  refine ⟨rfl, by simp [arrRootGraph], rfl, rfl, ?_⟩
  intro e he
  simp [arrRootGraph] at he

theorem jsonToGraphData_ok_cases (prev : Nat) (parsed : Except String Json) (g : GraphData)
    (h : jsonToGraphData prev parsed = .ok g) :
    g = { nodes := [], edges := [] } ∨ GraphInv g := by
  cases parsed with
  | error m => exact absurd h (by simp [jsonToGraphData, Except.bind])
  | ok data =>
    have hb := jsonToGraphData_ok_buildFrom _ _ _ h
    cases data with
    | null =>
      left
      rw [show buildFrom Json.null = Except.ok { nodes := [], edges := [] } from rfl] at hb
      simp only [Except.ok.injEq] at hb
      exact hb.symm
    | bool b =>
      left
      rw [show buildFrom (Json.bool b) = Except.ok { nodes := [], edges := [] } from rfl] at hb
      simp only [Except.ok.injEq] at hb
      exact hb.symm
    | num n =>
      left
      rw [show buildFrom (Json.num n) = Except.ok { nodes := [], edges := [] } from rfl] at hb
      simp only [Except.ok.injEq] at hb
      exact hb.symm
    | str st =>
      left
      rw [show buildFrom (Json.str st) = Except.ok { nodes := [], edges := [] } from rfl] at hb
      simp only [Except.ok.injEq] at hb
      exact hb.symm
    | arr xs =>
      right
      rw [show buildFrom (Json.arr xs) = Except.ok arrRootGraph from rfl] at hb
      simp only [Except.ok.injEq] at hb
      rw [← hb]
      exact graphInv_arrRootGraph
    | obj fs =>
      right
      exact buildFrom_obj_graphInv fs g hb

/-! Section: C3: determinism -/

/-- C3: the build is deterministic.  The only mutable state shared between
calls is the module-level `nodeIdCounter`; it is reset to 0 at the start of
every build (line 11, `initialState`), so two invocations on byte-identical
input — i.e. on the identical `JSON.parse` outcome, since `JSON.parse` is a
pure function of the text — produce identical node lists and edge lists
(identical id assignment, order and content), whatever counter values the
two calls start from. -/
theorem c3_deterministic (prev1 prev2 : Nat) (parsed : Except String Json) :
    jsonToGraphData prev1 parsed = jsonToGraphData prev2 parsed := rfl

/-! Section: C6: parse failures -/

/-- C6: whenever `JSON.parse` fails (its outcome is a thrown `SyntaxError`
with message `msg` — e.g. for the text `{not valid json`), the build fails
with that same error kind re-thrown as an `Error` whose message is the
message of the parser wrapped in the user-facing description `Invalid JSON: `; no
other error shape can be produced for a parse failure. -/
theorem c6_parse_error (prevCounter : Nat) (msg : String) :
    jsonToGraphData prevCounter (.error msg) = .error ("Invalid JSON: " ++ msg) := rfl

/-! Section: C2: non-object roots -/

/-- C2 counterexample: the input `[1,2,3]` — a bare top-level array — does
NOT yield the empty graph `{nodes: [], edges: []}` claimed: a JavaScript
array satisfies `typeof data === 'object'`, so the guard of lines 18-20
falls through and the build emits the root order node (labelled
`Order: undefined`). -/
theorem c2_counterexample :
    jsonToGraphData 0 (.ok (.arr [.num 1, .num 2, .num 3])) =
      .ok (graphOf (jsonToGraphData 0 (.ok (.arr [.num 1, .num 2, .num 3]))))
    ∧ (graphOf (jsonToGraphData 0 (.ok (.arr [.num 1, .num 2, .num 3])))).nodes.map
        (fun nd => (nd.id, nd.type, nd.depth)) = [("node-0", "order", 0)]
    ∧ (graphOf (jsonToGraphData 0 (.ok (.arr [.num 1, .num 2, .num 3])))).edges = [] :=
  ⟨rfl, rfl, rfl⟩

/-- C2 amended: only a top-level value that is not `typeof 'object'` (a
number, a string, a boolean) or is `null` yields the empty graph; a bare
array is `typeof 'object'` in JavaScript, falls through the guard, and
instead yields a graph whose single node is the order root. -/
theorem c2_amended (prevCounter : Nat) (j : Json) :
    (isObjectType j = false ∨ j = .null →
      jsonToGraphData prevCounter (.ok j) = .ok { nodes := [], edges := [] })
    ∧ (∀ xs, j = .arr xs →
      ∃ g, jsonToGraphData prevCounter (.ok j) = .ok g
        ∧ g.nodes.map (fun nd => (nd.id, nd.type, nd.depth)) = [("node-0", "order", 0)]
        ∧ g.edges = []) := by
  constructor
  · intro h
    cases j with
    | null => rfl
    | bool b => rfl
    | num n => rfl
    | str s => rfl
    | arr xs => simp [isObjectType] at h
    | obj fs => simp [isObjectType] at h
  · rintro xs rfl
    exact ⟨_, rfl, rfl, rfl⟩

/-- C2 amended, witness: at the number `1` the empty graph is returned, and
at the array `[1,2,3]` the one-node order graph is returned. -/
theorem c2_amended_witness :
    jsonToGraphData 0 (.ok (.num 1)) = .ok { nodes := [], edges := [] }
    ∧ (graphOf (jsonToGraphData 0 (.ok (.arr [.num 1, .num 2, .num 3])))).nodes.map
        (fun nd => (nd.id, nd.type, nd.depth)) = [("node-0", "order", 0)]
    ∧ (graphOf (jsonToGraphData 0 (.ok (.arr [.num 1, .num 2, .num 3])))).edges = [] := by
  refine ⟨(c2_amended 0 (.num 1)).1 (Or.inl rfl), ?_, ?_⟩
  · obtain ⟨g, hg, hn, he⟩ := (c2_amended 0 (.arr [.num 1, .num 2, .num 3])).2 _ rfl
    rw [hg]
    simpa [graphOf] using hn
  · obtain ⟨g, hg, hn, he⟩ := (c2_amended 0 (.arr [.num 1, .num 2, .num 3])).2 _ rfl
    rw [hg]
    simpa [graphOf] using he

/-! Section: C5: the cross-reference scenario -/

/-- C5: the specification scenario
`{"orderId":"O1","products":[{"productSequenceNumber":1,"lines":[{"lineSequence":10,"addressSequence":5}]}],"addresses":[{"addressSequence":5}]}`
builds an `order` node, a `product` node that is a containment child of the
order node, a `line` node that is a containment child of the product node,
an `address` node that is a containment child of the order node, and exactly
one `reference` edge, from the line node to the address node (resolved via
`addressSequence` 5). -/
theorem c5_scenario :
    jsonToGraphData 0 (.ok (scenarioDoc 5)) = .ok scenarioGraph
    ∧ scenarioGraph.nodes.map (fun nd => (nd.id, nd.type)) =
        [("node-0", "order"), ("node-1", "product"), ("node-2", "line"), ("node-3", "address")]
    ∧ scenarioGraph.edges =
        [{ source := "node-0", target := "node-1", type := EdgeType.default },
         { source := "node-1", target := "node-2", type := EdgeType.default },
         { source := "node-0", target := "node-3", type := EdgeType.default },
         { source := "node-2", target := "node-3", type := EdgeType.reference }] :=
  ⟨rfl, rfl, rfl⟩

/-! Section: C7: traversal exceptions -/

/-- C7 counterexample: for the parseable input `{"products": 5}` the
traversal throws a `TypeError` (`data.products?.forEach` is not callable),
and the catch block does NOT convert it into the generic unknown-error
message: a `TypeError` is an `Error` instance, so it is re-thrown with the
same `Invalid JSON: ` wrapping used for parse errors — there is no distinct
`UnknownError` outcome for traversal exceptions. -/
theorem c7_counterexample :
    jsonToGraphData 0 (.ok badProductsDoc) =
      .error ("Invalid JSON: " ++ "data.products?.forEach is not a function")
    ∧ ("Invalid JSON: " ++ "data.products?.forEach is not a function") ≠ unknownErrorMessage :=
  ⟨rfl, by decide⟩

/-- C7 amended: every failure outcome of the build — a parse error or any
exception thrown during traversal/resolution, all of which are `Error`
instances — carries the `Invalid JSON: ` wrapping; the generic
unknown-error message (reserved for thrown non-`Error` values) is never
produced. -/
theorem c7_amended (prevCounter : Nat) (parsed : Except String Json) (e : String)
    (h : jsonToGraphData prevCounter parsed = .error e) :
    (∃ m, e = "Invalid JSON: " ++ m) ∧ e ≠ unknownErrorMessage := by
  unfold jsonToGraphData at h
  rcases hb : parsed.bind buildFrom with m | g
  swap
  · rw [hb] at h; exact absurd h (by simp)
  · rw [hb] at h
    have he : e = "Invalid JSON: " ++ m := by
      have := h.symm
      simpa using this
    refine ⟨⟨m, he⟩, ?_⟩
    subst he
    intro heq
    have hd := congrArg String.data heq
    rw [String.data_append] at hd
    simp [unknownErrorMessage] at hd

/-- C7 amended, witness: at the concrete input `{"products": 5}` the failure
message is `Invalid JSON: `-wrapped and differs from the generic
unknown-error message. -/
theorem c7_amended_witness :
    "Invalid JSON: data.products?.forEach is not a function" =
      "Invalid JSON: " ++ "data.products?.forEach is not a function"
    ∧ "Invalid JSON: data.products?.forEach is not a function" ≠ unknownErrorMessage := by
  have h := c7_amended 0 (.ok badProductsDoc)
    "Invalid JSON: data.products?.forEach is not a function" rfl
  exact ⟨rfl, h.2⟩

/-! Section: C8: degradation on unresolved references -/

/-- C8 counterexample: the claim quantifies over every parseable document
in which a cross-reference field holds a value with no matching entity, and
asserts the build succeeds without raising.  The document
`{"eventLog":[{"addressSequence":99},null]}` parses, and its
`addressSequence` 99 has no matching entity (the address index is empty) —
yet the build raises: reference resolution scans the retained `eventLog`
array element-wise, and reading `accountSequence` from its `null` element is
a `TypeError`, re-thrown by the catch block with the `Invalid JSON: `
wrapping.  So the build does not succeed on every such document. -/
theorem c8_counterexample :
    jsonToGraphData 0 (.ok danglingNullDoc) =
      .error ("Invalid JSON: " ++ "Cannot read properties of null (reading accountSequence)") :=
  rfl

/-- C8 amended: a lookup that fails to resolve is itself silently ignored —
it raises nothing and the edge that would have depended on it is simply
omitted — so a document whose remaining shape the build can traverse
succeeds without that edge.  Both dangling-reference kinds of the claim are
covered: in the scenario document, an `addressSequence` value `n` with no
matching entity in the address index (any `n` other than 5) yields exactly
the three containment edges; in the item-reference document, an
`itemSequences` id `s` absent from the business-id index (any `s` other
than `N`, the one indexed item id) likewise yields exactly the three
containment edges, with the line-to-item reference edge omitted. -/
theorem c8_dangling_reference_omitted (n : Int) (s : String) (hn : n ≠ 5) (hs : s ≠ "N") :
    (∃ g, jsonToGraphData 0 (.ok (scenarioDoc n)) = .ok g
      ∧ g.nodes.map (fun nd => (nd.id, nd.type)) =
          [("node-0", "order"), ("node-1", "product"), ("node-2", "line"), ("node-3", "address")]
      ∧ g.edges =
          [{ source := "node-0", target := "node-1", type := EdgeType.default },
           { source := "node-1", target := "node-2", type := EdgeType.default },
           { source := "node-0", target := "node-3", type := EdgeType.default }])
    ∧ (∃ g, jsonToGraphData 0 (.ok (itemRefDoc s)) = .ok g
      ∧ g.nodes.map (fun nd => (nd.id, nd.type)) =
          [("node-0", "order"), ("node-1", "product"), ("node-2", "line"), ("node-3", "item")]
      ∧ g.edges =
          [{ source := "node-0", target := "node-1", type := EdgeType.default },
           { source := "node-1", target := "node-2", type := EdgeType.default },
           { source := "node-1", target := "node-3", type := EdgeType.default }]) := by
  have hnum : ((5 : Int) == n) = false := by
    simp only [beq_eq_false_iff_ne]
    exact fun e => hn e.symm
  have hstr : (("N" : String) == s) = false := by
    simp only [beq_eq_false_iff_ne]
    exact fun e => hs e.symm
  constructor
  · refine ⟨_, rfl, ?_, ?_⟩ <;>
      simp only [scenarioDoc, jsonToGraphData, buildFrom, initialState, addNode, addOrderExtras,
        addTail, jsGet, lookupStr, jsForEach, foldSteps, processProduct, processLine,
        processService, processItem, processDevice, processFulfillment, processShipment,
        processPromotion, processAddress, processAccount, recordSeq, recordId, truthy,
        jsToStringU, jsToString, jsToStringArr, toLocaleDateString, spreadFields, seqMapsSet,
        mapSet, jsKeyEq, nodeIdStr, createReferenceEdges, refEdgesForNode, dataIsScannable,
        isObjectType, dataItems, scanDataItems, scanDataItem, refSeqScan, referenceKeys,
        dataItemGet, jsGetE, seqMapsGet, mapGet, priceScan, adjScan, jsDataGet, itemSeqScan,
        prodSeqScan, jsParseInt10, tcKeysOf, hnum, Except.bind, jsIndex0, jsLength, orEmpty,
        String.reduceEq, reduceIte, Int.reduceBNe, Int.reduceBEq, Int.reduceEq, String.reduceBEq,
        Bool.false_eq_true, Bool.true_eq_false, if_true, if_false,
        Nat.reduceAdd, String.reduceAppend, List.map] <;>
      rfl
  · refine ⟨_, rfl, ?_, ?_⟩ <;>
      simp only [itemRefDoc, jsonToGraphData, buildFrom, initialState, addNode, addOrderExtras,
        addTail, jsGet, lookupStr, jsForEach, foldSteps, processProduct, processLine,
        processService, processItem, processDevice, processFulfillment, processShipment,
        processPromotion, processAddress, processAccount, recordSeq, recordId, truthy,
        jsToStringU, jsToString, jsToStringArr, toLocaleDateString, spreadFields, seqMapsSet,
        mapSet, jsKeyEq, nodeIdStr, createReferenceEdges, refEdgesForNode, dataIsScannable,
        isObjectType, dataItems, scanDataItems, scanDataItem, refSeqScan, referenceKeys,
        dataItemGet, jsGetE, seqMapsGet, mapGet, priceScan, adjScan, jsDataGet, itemSeqScan,
        prodSeqScan, jsParseInt10, tcKeysOf, hstr, Except.bind, jsIndex0, jsLength, orEmpty,
        String.reduceEq, reduceIte, Int.reduceBNe, Int.reduceBEq, Int.reduceEq, String.reduceBEq,
        Bool.false_eq_true, Bool.true_eq_false, if_true, if_false,
        Nat.reduceAdd, String.reduceAppend, List.map] <;>
      rfl

/-- C8 amended, witness: at the unmatched sequence number 99 and the
unmatched item id `X` both builds succeed with only their three containment
edges. -/
theorem c8_dangling_reference_omitted_witness :
    (jsonToGraphData 0 (.ok (scenarioDoc 99)) =
        .ok (graphOf (jsonToGraphData 0 (.ok (scenarioDoc 99))))
      ∧ (graphOf (jsonToGraphData 0 (.ok (scenarioDoc 99)))).edges =
          [{ source := "node-0", target := "node-1", type := EdgeType.default },
           { source := "node-1", target := "node-2", type := EdgeType.default },
           { source := "node-0", target := "node-3", type := EdgeType.default }])
    ∧ (jsonToGraphData 0 (.ok (itemRefDoc "X")) =
        .ok (graphOf (jsonToGraphData 0 (.ok (itemRefDoc "X"))))
      ∧ (graphOf (jsonToGraphData 0 (.ok (itemRefDoc "X")))).edges =
          [{ source := "node-0", target := "node-1", type := EdgeType.default },
           { source := "node-1", target := "node-2", type := EdgeType.default },
           { source := "node-1", target := "node-3", type := EdgeType.default }]) := by
  obtain ⟨⟨g1, hg1, hn1, he1⟩, ⟨g2, hg2, hn2, he2⟩⟩ :=
    c8_dangling_reference_omitted 99 "X" (by decide) (by decide)
  refine ⟨⟨?_, ?_⟩, ?_, ?_⟩
  · rw [hg1]
    rfl
  · rw [hg1]
    simpa [graphOf] using he1
  · rw [hg2]
    rfl
  · rw [hg2]
    simpa [graphOf] using he2

/-! Section: C1: sequence chains -/

/-- C1 counterexample: for two sibling `fulfillments` entries that both
carry the numeric sequence field `sequenceNumber` — with values 2 and 1 in
that input order — the build succeeds and emits NO `sequence`-typed edge at
all (in particular none from the sequence-1 node to the sequence-2 node):
the only edges are the two containment edges from the order root, in input
order.  The traversal never sorts siblings by a sequence field and never
creates a `sequence` edge anywhere. -/
theorem c1_counterexample :
    jsonToGraphData 0 (.ok seqSiblingsDoc) = .ok seqSiblingsGraph
    ∧ seqSiblingsGraph.nodes.map (fun nd => (nd.id, nd.type)) =
        [("node-0", "order"), ("node-1", "fulfillment"), ("node-2", "fulfillment")]
    ∧ seqSiblingsGraph.edges =
        [{ source := "node-0", target := "node-1", type := EdgeType.default },
         { source := "node-0", target := "node-2", type := EdgeType.default }] :=
  ⟨rfl, rfl, rfl⟩

/-- C1 amended: the build never emits `sequence`-typed edges for any input:
every edge of a successfully built graph is a containment (`default`) edge
or a cross-reference (`reference`) edge — sibling collections carrying a
numeric sequence field are linked to their parent by containment edges only,
in input order, with no ascending-order chain. -/
theorem c1_amended_no_sequence (prev : Nat) (parsed : Except String Json) (g : GraphData)
    (h : jsonToGraphData prev parsed = .ok g) :
    ∀ e ∈ g.edges, e.type ≠ EdgeType.sequence := by
  rcases jsonToGraphData_ok_cases _ _ _ h with rfl | hg
  · intro e he
    simp at he
  · intro e he
    rcases hg.types_ok e he with h1 | h1 <;> simp [h1]

/-- C1 amended, witness: at the two-fulfillment document with sequence
numbers 2 and 1 no edge is `sequence`-typed. -/
theorem c1_amended_witness :
    (seqSiblingsGraph.edges.all fun e => e.type != EdgeType.sequence) = true := by
  rw [List.all_eq_true]
  intro e he
  simpa using c1_amended_no_sequence 0 (.ok seqSiblingsDoc) seqSiblingsGraph rfl e he

/-! Section: C9: amendment edges -/

/-- C9 counterexample: for a document carrying an `amendedDetails` list of
`{newId, oldId}` pairs whose two ids both resolve in the business-id index
(both are ids of item nodes the build creates), the build emits NO
`amendment`-typed edge: `amendedDetails` is never read by the traversal or
by reference resolution, and the resulting edges are the three containment
edges only. -/
theorem c9_counterexample :
    jsonToGraphData 0 (.ok amendedDoc) = .ok amendedGraph
    ∧ amendedGraph.nodes.map (fun nd => (nd.id, nd.type)) =
        [("node-0", "order"), ("node-1", "product"), ("node-2", "item"), ("node-3", "item")]
    ∧ amendedGraph.edges =
        [{ source := "node-0", target := "node-1", type := EdgeType.default },
         { source := "node-1", target := "node-2", type := EdgeType.default },
         { source := "node-1", target := "node-3", type := EdgeType.default }] :=
  ⟨rfl, rfl, rfl⟩

/-- C9 amended: reference resolution ignores `amendedDetails` entirely; the
build never emits an `amendment`-typed edge for any input, even when both
ids of an `amendedDetails` pair resolve in the business-id index. -/
theorem c9_amended_no_amendment (prev : Nat) (parsed : Except String Json) (g : GraphData)
    (h : jsonToGraphData prev parsed = .ok g) :
    ∀ e ∈ g.edges, e.type ≠ EdgeType.amendment := by
  rcases jsonToGraphData_ok_cases _ _ _ h with rfl | hg
  · intro e he
    simp at he
  · intro e he
    rcases hg.types_ok e he with h1 | h1 <;> simp [h1]

/-- C9 amended, witness: at the document whose `amendedDetails` ids both
belong to items, no edge is `amendment`-typed. -/
theorem c9_amended_witness :
    (amendedGraph.edges.all fun e => e.type != EdgeType.amendment) = true := by
  rw [List.all_eq_true]
  intro e he
  simpa using c9_amended_no_amendment 0 (.ok amendedDoc) amendedGraph rfl e he

/-! Section: C4: containment completeness -/

/-- C4: in every successfully built graph, each node except the root
(`node-0`, always the first node) is the target of exactly one
`default`-typed containment edge, and the root is the target of none. -/
theorem c4_containment (prev : Nat) (parsed : Except String Json) (g : GraphData)
    (h : jsonToGraphData prev parsed = .ok g) :
    ∀ nd ∈ g.nodes,
      (g.edges.filter fun e => e.type == EdgeType.default && e.target == nd.id).length =
        if nd.id = "node-0" then 0 else 1 := by
  rcases jsonToGraphData_ok_cases _ _ _ h with rfl | hg
  · intro nd hnd
    simp at hnd
  · intro nd hnd
    have hmem : nd.id ∈ g.nodes.map Node.id := List.mem_map_of_mem _ hnd
    rw [hg.ids_eq] at hmem
    obtain ⟨i, hi, hid⟩ := List.mem_map.mp hmem
    rw [List.mem_range] at hi
    have hlen : g.nodes.length ≠ 0 := fun h0 => hg.nonempty (List.length_eq_zero.mp h0)
    obtain ⟨m, hm⟩ : ∃ m, g.nodes.length = m + 1 := ⟨g.nodes.length - 1, by omega⟩
    have hff : (g.edges.filter fun e => e.type == EdgeType.default && e.target == nd.id) =
        ((g.edges.filter fun e => e.type == EdgeType.default).filter
          fun e => e.target == nd.id) := by
      rw [List.filter_filter]
      congr 1
      funext e
      exact Bool.and_comm _ _
    have hcount :
        ((g.edges.filter fun e => e.type == EdgeType.default).filter
          fun e => e.target == nd.id).length =
        ((g.edges.filter fun e => e.type == EdgeType.default).map Edge.target).count nd.id := by
      rw [List.count, List.countP_map, List.countP_eq_length_filter]
      rfl
    have hdrop : ((g.nodes.map Node.id).drop 1) =
        (List.range m).map (fun j => nodeIdStr (j + 1)) := by
      rw [hg.ids_eq, hm, List.range_succ_eq_map]
      simp only [List.map_cons, List.drop_succ_cons, List.drop_zero, List.map_map]
      rfl
    rw [hff, hcount, hg.default_targets, hdrop, ← hid]
    have hinj : Function.Injective (fun j => nodeIdStr (j + 1)) := by
      intro a b hab
      have := nodeIdStr_injective hab
      omega
    by_cases hi0 : i = 0
    · subst hi0
      rw [if_pos (show nodeIdStr 0 = "node-0" from rfl)]
      rw [List.count_eq_zero]
      intro hmem2
      obtain ⟨j, _, hj⟩ := List.mem_map.mp hmem2
      have := nodeIdStr_injective hj
      omega
    · rw [if_neg ?_]
      swap
      · intro heq
        have : nodeIdStr i = nodeIdStr 0 := heq
        have := nodeIdStr_injective this
        omega
      obtain ⟨k, rfl⟩ : ∃ k, i = k + 1 := ⟨i - 1, by omega⟩
      have hx : nodeIdStr (k + 1) = (fun j => nodeIdStr (j + 1)) k := rfl
      rw [hx, List.count_map_of_injective _ _ hinj]
      exact List.count_eq_one_of_mem (List.nodup_range m) (List.mem_range.mpr (by omega))

/-- C4, witness: in the graph built from the reference scenario document,
every node satisfies the containment-completeness count. -/
theorem c4_containment_witness :
    (scenarioGraph.nodes.all fun nd =>
      (scenarioGraph.edges.filter fun e =>
        e.type == EdgeType.default && e.target == nd.id).length ==
        (if nd.id = "node-0" then 0 else 1)) = true := by
  rw [List.all_eq_true]
  intro nd hnd
  simpa using c4_containment 0 (.ok (scenarioDoc 5)) scenarioGraph rfl nd hnd

/-! Section: C10: the order root of object documents -/

/-- C10: whenever the parsed input is an object (even the empty object
`{}`, carrying none of the recognized order fields), a successful build
returns a non-empty graph whose first node is the order root: id `node-0`,
type `order`, depth 0. -/
theorem c10_order_root (prev : Nat) (fs : List (String × Json)) (g : GraphData)
    (h : jsonToGraphData prev (.ok (.obj fs)) = .ok g) :
    g.nodes ≠ [] ∧
      g.nodes.head?.map (fun nd => (nd.id, nd.type, nd.depth)) = some ("node-0", "order", 0) := by
  have hg := buildFrom_obj_graphInv fs g (jsonToGraphData_ok_buildFrom _ _ _ h)
  exact ⟨hg.nonempty, hg.head_root⟩

/-- C10, witness: the build of the empty object document returns a graph
headed by the `node-0` order root. -/
theorem c10_order_root_witness :
    emptyObjGraph.nodes ≠ [] ∧
      emptyObjGraph.nodes.head?.map (fun nd => (nd.id, nd.type, nd.depth)) =
        some ("node-0", "order", 0) :=
  c10_order_root 0 [] emptyObjGraph rfl

end GraphService
